import Mathlib

/-!
Verification of the Porthole local service gateway (`server.js`) against its
natural-language specification.  The JavaScript source is shallowly embedded:
strings are `String` or `List Char`, the event-driven callbacks are modelled as
functions over the sequence of events actually delivered, external effects
(socket probes, `execSync`, the ngrok local API, `spawn`) are parameters that
supply the outcome the environment would produce, and the in-memory
`activeTunnels` JavaScript `Map` is an association list in insertion order.
-/

namespace Porthole

/-! ### Generic string helpers (JS string primitives over `List Char`) -/

/-- Decimal value of a digit string, as computed by JS `parseInt(ds, 10)`
for a nonempty string of ASCII digits. -/
def natOfDigits (ds : List Char) : Nat :=
  ds.foldl (fun n c => 10 * n + (c.toNat - 48)) 0

/-- JS `String.prototype.includes`: does `pat` occur contiguously in `s`? -/
def containsL (pat : List Char) : List Char → Bool
  | [] => pat.isEmpty
  | c :: rest => pat.isPrefixOf (c :: rest) || containsL pat rest

/-- JS `String.prototype.replace` with a string pattern replaces only the
first occurrence of `pat` in `s`. -/
def replaceFirstL (pat rep : List Char) : List Char → List Char
  | [] => if pat.isEmpty then rep else []
  | c :: rest =>
      if pat.isPrefixOf (c :: rest) then rep ++ (c :: rest).drop pat.length
      else c :: replaceFirstL pat rep rest

/-- JS `includes` on `String`. -/
def strIncludes (s pat : String) : Bool := containsL pat.toList s.toList

/-- JS `startsWith` on `String`. -/
def strStartsWith (s pre : String) : Bool := pre.toList.isPrefixOf s.toList

/-- JS `replace(pat, rep)` (first occurrence only) on `String`. -/
def strReplaceFirst (s pat rep : String) : String :=
  String.mk (replaceFirstL pat.toList rep.toList s.toList)

/-- ASCII whitespace trimmed by JS `trim` (the characters that occur in this
program's command output). -/
def isJsWhitespace (c : Char) : Bool :=
  c = ' ' || c = '\n' || c = '\t' || c = '\r'

/-- JS `String.prototype.trim`. -/
def trimL (cs : List Char) : List Char :=
  ((cs.dropWhile isJsWhitespace).reverse.dropWhile isJsWhitespace).reverse

/-- JS `String.prototype.split` with a single-character separator:
`"a\nb".split('\n') = ["a","b"]`, `"".split('\n') = [""]`. -/
def splitOnCharL (sep : Char) : List Char → List (List Char)
  | [] => [[]]
  | c :: rest =>
      if c = sep then [] :: splitOnCharL sep rest
      else
        match splitOnCharL sep rest with
        | [] => [[c]]
        | g :: gs => (c :: g) :: gs

/-! ### 4.1 Liveness Prober — `checkPort` (server.js lines 33-64)

`checkPort` registers `connect`, `timeout` and `error` handlers on a fresh
socket and resolves a promise.  We model the socket as the sequence of events
it fires; `SocketState` carries the `resolved` flag from the source, whether
`socket.destroy()` has been called, and the (at most once settled) promise
value. -/

inductive SocketEvent where
  | connect
  | timeout
  | error
  deriving DecidableEq, Repr

/-- True exactly for the `connect` event. -/
def SocketEvent.isConnect : SocketEvent → Bool
  | .connect => true
  | _ => false

structure SocketState where
  resolved : Bool
  destroyed : Bool
  result : Option Bool
  deriving DecidableEq, Repr

/-- A JS promise settles at most once: later `resolve` calls are no-ops. -/
def resolveOnce (st : SocketState) (b : Bool) : SocketState :=
  { st with result := match st.result with
      | some r => some r
      | none => some b }

/-- One socket event handler step, exactly as registered in `checkPort`:
`connect` unconditionally sets `resolved`, destroys the socket and resolves
`true`; `timeout` and `error` do the same with `false` but only when not yet
`resolved`. -/
def handleSocketEvent (st : SocketState) : SocketEvent → SocketState
  | .connect => resolveOnce { st with resolved := true, destroyed := true } true
  | .timeout =>
      if st.resolved then st
      else resolveOnce { st with resolved := true, destroyed := true } false
  | .error =>
      if st.resolved then st
      else resolveOnce { st with resolved := true, destroyed := true } false

/-- `checkPort` over the sequence of events the socket fires (the port and
timeout arguments only configure the socket; the resulting promise value is
determined by the events). -/
def checkPort (events : List SocketEvent) : SocketState :=
  events.foldl handleSocketEvent ⟨false, false, none⟩

lemma handleSocketEvent_settled (b : Bool) (ev : SocketEvent) :
    handleSocketEvent ⟨true, true, some b⟩ ev = ⟨true, true, some b⟩ := by
  cases ev <;> simp [handleSocketEvent, resolveOnce]

lemma foldl_handleSocketEvent_settled (b : Bool) (es : List SocketEvent) :
    es.foldl handleSocketEvent ⟨true, true, some b⟩ = ⟨true, true, some b⟩ := by
  induction es with
  | nil => rfl
  | cons e es ih => simpa [handleSocketEvent_settled] using ih

/-- C6: for every port and timeout, `checkPort` resolves to a boolean that is
`true` exactly when the first socket event is a successful connect and `false`
on timeout or connection error; it never escapes with an exception (the model
is a total function into a settled state), and the socket is destroyed on
every resolution path. -/
theorem checkPort_resolves (e : SocketEvent) (es : List SocketEvent) :
    (checkPort (e :: es)).result = some e.isConnect ∧
    (checkPort (e :: es)).destroyed = true ∧
    (checkPort (e :: es)).resolved = true := by
  have hfirst : handleSocketEvent ⟨false, false, none⟩ e =
      ⟨true, true, some e.isConnect⟩ := by
    cases e <;> simp [handleSocketEvent, resolveOnce, SocketEvent.isConnect]
  have : checkPort (e :: es) = ⟨true, true, some e.isConnect⟩ := by
    simp only [checkPort, List.foldl_cons, hfirst,
      foldl_handleSocketEvent_settled]
  simp [this]

/-! ### 4.3 Port Scanner — `getPortsToScan`, `scanPorts` (server.js lines 22-30, 88-112)

The probe outcome and the `lsof` process lookup are environment parameters
(`isOpen`, `procInfo`); the scan itself (range expansion, batching in groups
of 50, skipping the gateway's own port, dropping closed ports) is translated
directly. -/

structure ProcessInfo where
  name : String
  pid : Option String
  deriving DecidableEq, Repr

structure ServiceInfo where
  port : Nat
  name : String
  pid : Option String
  deriving DecidableEq, Repr

/-- `getPortsToScan`: expand every configured `[start, end]` range (inclusive)
in order.  An empty or inverted range contributes nothing, as in the JS
`for` loop. -/
def getPortsToScan (portRanges : List (Nat × Nat)) : List Nat :=
  portRanges.foldl (fun ports r => ports ++ List.range' r.1 (r.2 + 1 - r.1)) []

/-- The body of the `batch.map` callback in `scanPorts`: the gateway's own
port is skipped before probing; an open port is joined with its process
info; a closed port yields `null`. -/
def scanOne (serverPort : Nat) (isOpen : Nat → Bool) (procInfo : Nat → ProcessInfo)
    (port : Nat) : Option ServiceInfo :=
  if port = serverPort then none
  else if isOpen port then some ⟨port, (procInfo port).name, (procInfo port).pid⟩
  else none

/-- The `for (let i = 0; i < n; i += batchSize)` slicing of the port list
into batches of 50, written with an explicit fuel equal to the list length
(the loop runs at most `length` times). -/
def scanBatchesAux : Nat → List Nat → List (List Nat)
  | 0, _ => []
  | _, [] => []
  | fuel + 1, l => l.take 50 :: scanBatchesAux fuel (l.drop 50)

def scanBatches (l : List Nat) : List (List Nat) :=
  scanBatchesAux l.length l

/-- `scanPorts`: probe every candidate port batch by batch and collect the
non-`null` results in order (`results.push(...checks.filter(Boolean))`). -/
def scanPorts (portRanges : List (Nat × Nat)) (serverPort : Nat)
    (isOpen : Nat → Bool) (procInfo : Nat → ProcessInfo) : List ServiceInfo :=
  ((scanBatches (getPortsToScan portRanges)).map
    (fun b => (b.map (scanOne serverPort isOpen procInfo)).filterMap id)).flatten

/-- C3: for every configuration of port ranges and every probe outcome, the
sequence returned by `scanPorts` never contains a `ServiceInfo` whose port
equals the gateway's own configured listening port, even when that port lies
inside a configured range and has a listener. -/
theorem scanPorts_excludes_own_port (portRanges : List (Nat × Nat))
    (serverPort : Nat) (isOpen : Nat → Bool) (procInfo : Nat → ProcessInfo)
    (s : ServiceInfo) (hs : s ∈ scanPorts portRanges serverPort isOpen procInfo) :
    s.port ≠ serverPort := by
  rcases List.mem_flatten.mp hs with ⟨chunkRes, hchunk, hsin⟩
  rcases List.mem_map.mp hchunk with ⟨b, _, rfl⟩
  rcases List.mem_filterMap.mp hsin with ⟨o, ho, hid⟩
  rcases List.mem_map.mp ho with ⟨p, _, hscan⟩
  cases o with
  | none => cases hid
  | some s' =>
      cases hid
      unfold scanOne at hscan
      by_cases hps : p = serverPort
      · simp [hps] at hscan
      · by_cases hopen : isOpen p
        · simp only [hps, if_false, hopen, if_true, Option.some.injEq] at hscan
          cases hscan
          simpa using hps
        · simp [hps, hopen] at hscan

/-- Concrete run of C3: with ranges `[[2999, 3001]]`, the gateway itself on
3000 and a listener on every port, the scan reports 2999 (and 3001) but the
reported service's port differs from the gateway's. -/
theorem scanPorts_excludes_own_port_witness :
    (⟨2999, "node", some "12"⟩ : ServiceInfo) ∈
      scanPorts [(2999, 3001)] 3000 (fun _ => true) (fun _ => ⟨"node", some "12"⟩) ∧
    (⟨2999, "node", some "12"⟩ : ServiceInfo).port ≠ 3000 :=
  ⟨by decide,
   scanPorts_excludes_own_port [(2999, 3001)] 3000 (fun _ => true)
     (fun _ => ⟨"node", some "12"⟩) ⟨2999, "node", some "12"⟩ (by decide)⟩

/-! ### 4.4 Process Lifecycle Controller — `killByPort` (server.js lines 115-129)

`execSync` outcomes are parameters: `lsofOutcome` is the result of
`lsof -i :port -P -n -t` (`Except.error` models a thrown exception, which is
how `lsof` reports "no process found" — it exits nonzero), and `killOutcome`
is the result of `kill -9 pid` for each PID.  The whole body is wrapped in
`try/catch`, so the function always returns a structured result. -/

structure KillResult where
  success : Bool
  message : String
  deriving DecidableEq, Repr

/-- The PID list extracted from a successful `lsof -t` run:
`output.trim().split('\n').filter(Boolean)`. -/
def lsofPids (output : String) : List String :=
  ((splitOnCharL '\n' (trimL output.toList)).filter (fun p => !p.isEmpty)).map
    String.mk

/-- The `for (const pid of pids) execSync(kill ...)` loop: the first throwing
`kill` aborts the loop with its error. -/
def firstKillError (killOutcome : String → Except String Unit) :
    List String → Option String
  | [] => none
  | pid :: rest =>
      match killOutcome pid with
      | .error e => some e
      | .ok _ => firstKillError killOutcome rest

/-- `killByPort`, with the two `execSync` effects supplied by the
environment. -/
def killByPort (lsofOutcome : Except String String)
    (killOutcome : String → Except String Unit) (port : Nat) : KillResult :=
  match lsofOutcome with
  | .error e => ⟨false, s!"Failed to kill process on port {port}: {e}"⟩
  | .ok output =>
      match firstKillError killOutcome (lsofPids output) with
      | some e => ⟨false, s!"Failed to kill process on port {port}: {e}"⟩
      | none => ⟨true, s!"Killed process(es) on port {port}"⟩

/-- C4: `killByPort` returns success exactly when PID resolution succeeds and
every listed PID (at least one — `lsof -t` exits nonzero, i.e. throws, when no
process matches, which hypothesis `hlsof` records) is signaled without error;
when resolution throws, or some `kill` throws, it returns a failure result
carrying a human-readable reason.  It is a total function: nothing escapes its
boundary. -/
theorem killByPort_result (lsofOutcome : Except String String)
    (killOutcome : String → Except String Unit) (port : Nat)
    (hlsof : ∀ out, lsofOutcome = .ok out → lsofPids out ≠ []) :
    ((killByPort lsofOutcome killOutcome port).success = true ↔
      ∃ out, lsofOutcome = .ok out ∧ lsofPids out ≠ [] ∧
        firstKillError killOutcome (lsofPids out) = none) ∧
    (∀ e, lsofOutcome = .error e →
      killByPort lsofOutcome killOutcome port =
        ⟨false, s!"Failed to kill process on port {port}: {e}"⟩) ∧
    (∀ out e, lsofOutcome = .ok out →
      firstKillError killOutcome (lsofPids out) = some e →
      killByPort lsofOutcome killOutcome port =
        ⟨false, s!"Failed to kill process on port {port}: {e}"⟩) := by
  refine ⟨?_, ?_, ?_⟩
  · constructor
    · intro hsucc
      cases lsofOutcome with
      | error e => simp [killByPort] at hsucc
      | ok out =>
          refine ⟨out, rfl, hlsof out rfl, ?_⟩
          cases hfk : firstKillError killOutcome (lsofPids out) with
          | none => rfl
          | some e => simp [killByPort, hfk] at hsucc
    · rintro ⟨out, rfl, -, hnone⟩
      simp [killByPort, hnone]
  · rintro e rfl
    rfl
  · rintro out e rfl hsome
    simp [killByPort, hsome]

/-- Concrete run of C4: two PIDs resolved, both signaled successfully. -/
theorem killByPort_result_witness :
    (killByPort (.ok "123\n456\n") (fun _ => .ok ()) 3000).success = true :=
  (killByPort_result (.ok "123\n456\n") (fun _ => .ok ()) 3000
      (fun out h => by cases h; decide)).1.mpr
    ⟨"123\n456\n", rfl, by decide, rfl⟩

/-! ### 4.4 Process Lifecycle Controller — `launchCommand` (server.js lines 262-285)

`spawn` is an environment parameter returning either unit or a synchronously
thrown error; the list of spawn invocations actually made is returned
alongside the result so that "no process was started" is expressible.  The
route handler parses the index with `/(\d+)/`, so it is a natural number. -/

structure QuickLaunchCmd where
  name : String
  command : String
  deriving DecidableEq, Repr

structure SpawnCall where
  executable : String
  args : List String
  detached : Bool
  deriving DecidableEq, Repr

structure LaunchResult where
  success : Bool
  message : String
  deriving DecidableEq, Repr

/-- Command-line splitting in `launchCommand`: `parts = cmd.command.split(' ')`,
`executable = parts[0]`. -/
def launchExecutable (cmd : QuickLaunchCmd) : String :=
  String.mk ((splitOnCharL ' ' cmd.command.toList).headD [])

/-- `args = parts.slice(1)`. -/
def launchArgs (cmd : QuickLaunchCmd) : List String :=
  (splitOnCharL ' ' cmd.command.toList).tail.map String.mk

/-- `launchCommand`: an out-of-range index finds no command (`!cmd`) and fails
without touching `spawn`; otherwise the command line is split on spaces and
spawned detached (`detached: true`, `unref`), succeeding immediately unless
`spawn` throws synchronously. -/
def launchCommand (quickLaunch : List QuickLaunchCmd)
    (spawnOutcome : String → List String → Except String Unit)
    (index : Nat) : LaunchResult × List SpawnCall :=
  match quickLaunch[index]? with
  | none => (⟨false, "Invalid command index"⟩, [])
  | some cmd =>
      match spawnOutcome (launchExecutable cmd) (launchArgs cmd) with
      | .ok _ =>
          (⟨true, s!"Started: {cmd.name}"⟩,
           [⟨launchExecutable cmd, launchArgs cmd, true⟩])
      | .error e =>
          (⟨false, s!"Failed to start {cmd.name}: {e}"⟩,
           [⟨launchExecutable cmd, launchArgs cmd, true⟩])

/-- C7: for every index outside `[0, len(quickLaunch))` (indexes are naturals,
so out of range means `len ≤ index`), `launchCommand` returns the
invalid-index failure and spawns no process; for every in-bounds index whose
spawn call does not throw, it spawns the configured command line detached and
returns success immediately. -/
theorem launchCommand_bounds (quickLaunch : List QuickLaunchCmd)
    (spawnOutcome : String → List String → Except String Unit) (index : Nat) :
    (quickLaunch.length ≤ index →
      launchCommand quickLaunch spawnOutcome index =
        (⟨false, "Invalid command index"⟩, [])) ∧
    (∀ cmd, quickLaunch[index]? = some cmd →
      spawnOutcome (launchExecutable cmd) (launchArgs cmd) = .ok () →
      launchCommand quickLaunch spawnOutcome index =
        (⟨true, s!"Started: {cmd.name}"⟩,
         [⟨launchExecutable cmd, launchArgs cmd, true⟩])) := by
  constructor
  · intro hlen
    have hnone : quickLaunch[index]? = none := by
      simpa using List.getElem?_eq_none hlen
    simp [launchCommand, hnone]
  · intro cmd hget hspawn
    simp only [launchCommand, hget]
    rw [hspawn]

/-- Concrete run of C7: a one-element quick-launch list; index 5 fails with
the invalid-index message and no spawn, index 0 spawns `npm run dev`. -/
theorem launchCommand_bounds_witness :
    launchCommand [⟨"My App", "npm run dev"⟩] (fun _ _ => .ok ()) 5 =
      (⟨false, "Invalid command index"⟩, []) ∧
    launchCommand [⟨"My App", "npm run dev"⟩] (fun _ _ => .ok ()) 0 =
      (⟨true, "Started: My App"⟩, [⟨"npm", ["run", "dev"], true⟩]) := by
  constructor
  · exact (launchCommand_bounds [⟨"My App", "npm run dev"⟩] (fun _ _ => .ok ()) 5).1
      (by decide)
  · have h := (launchCommand_bounds [⟨"My App", "npm run dev"⟩]
      (fun _ _ => .ok ()) 0).2 ⟨"My App", "npm run dev"⟩ rfl rfl
    exact h.trans (by decide)

/-! ### 4.5 Tunnel Session Manager — `activeTunnels`, `getNgrokTunnelUrl`,
`createTunnel` (server.js lines 19, 166-259)

The process-wide `activeTunnels` JavaScript `Map` is an association list in
insertion order; `Map.set` overwrites an existing key in place and otherwise
appends.  The ngrok local API is the environment: the `GET /api/tunnels`
listing is an optional list of tunnels (`none` models an unreachable agent,
a timeout or a malformed body, all of which resolve `null` in the source) and
the `POST /api/tunnels` outcome is one of the four cases handled by the
source.  Absent or falsy JSON string fields are modelled as `""`. -/

abbrev ActiveTunnels := List (Nat × String)

/-- JS `Map.prototype.set`. -/
def mapSet (m : ActiveTunnels) (port : Nat) (url : String) : ActiveTunnels :=
  if m.any (fun pu => pu.1 == port) then
    m.map (fun pu => if pu.1 == port then (port, url) else pu)
  else m ++ [(port, url)]

/-- JS `Map.prototype.get` (as an option). -/
def mapGet (m : ActiveTunnels) (port : Nat) : Option String :=
  (m.find? (fun pu => pu.1 == port)).map (fun pu => pu.2)

/-- Number of entries recorded for a port. -/
def countKey (m : ActiveTunnels) (port : Nat) : Nat :=
  m.countP (fun pu => pu.1 == port)

/-- One tunnel in the agent's `GET /api/tunnels` listing: `t.config.addr` and
`t.public_url` (absent fields modelled as `""`). -/
structure AgentTunnel where
  addr : String
  public_url : String
  deriving DecidableEq, Repr

/-- The find predicate of `getNgrokTunnelUrl`:
`t.config?.addr?.includes(`:${port}`) && t.public_url?.startsWith('https')`. -/
def tunnelMatches (port : Nat) (t : AgentTunnel) : Bool :=
  strIncludes t.addr (":" ++ toString port) && strStartsWith t.public_url "https"

/-- `getNgrokTunnelUrl`: query the agent listing for an https tunnel whose
address targets `port`; every failure mode (unreachable agent, timeout, parse
error, no match, empty URL via `|| null`) collapses to `none`. -/
def getNgrokTunnelUrl (listResp : Option (List AgentTunnel)) (port : Nat) :
    Option String :=
  match listResp with
  | none => none
  | some ts =>
      match ts.find? (tunnelMatches port) with
      | some t => if t.public_url = "" then none else some t.public_url
      | none => none

/-- The parsed JSON body of the agent's `POST /api/tunnels` reply. -/
structure PostResponse where
  public_url : String
  error_code : String
  msg : String
  deriving DecidableEq, Repr

/-- Outcome of the `POST /api/tunnels` request in `createTunnel`. -/
inductive PostOutcome where
  | response (r : PostResponse)
  | parseError (e : String)
  | requestError (e : String)
  | timeout
  deriving DecidableEq, Repr

/-- The https preference in `createTunnel`: keep a URL already starting with
`https`, otherwise rewrite the first `http://` to `https://`. -/
def httpsify (u : String) : String :=
  if strStartsWith u "https" then u else strReplaceFirst u "http://" "https://"

structure TunnelResult where
  success : Bool
  url : Option String
  message : Option String
  deriving DecidableEq, Repr

/-- `createTunnel`: first ask the agent whether a tunnel already targets the
port (recording it with "Tunnel already exists" if so); otherwise request a
new tunnel, record the https-preferred URL on success, and report structured
failures otherwise. -/
def createTunnel (listResp : Option (List AgentTunnel)) (post : PostOutcome)
    (tunnels : ActiveTunnels) (port : Nat) : ActiveTunnels × TunnelResult :=
  match getNgrokTunnelUrl listResp port with
  | some existingUrl =>
      (mapSet tunnels port existingUrl,
       ⟨true, some existingUrl, some "Tunnel already exists"⟩)
  | none =>
      match post with
      | .response r =>
          if r.public_url ≠ "" then
            (mapSet tunnels port (httpsify r.public_url),
             ⟨true, some (httpsify r.public_url), none⟩)
          else if r.error_code ≠ "" then
            (tunnels,
             ⟨false, none,
              some (if r.msg ≠ "" then r.msg else "Failed to create tunnel")⟩)
          else (tunnels, ⟨false, none, some "Unexpected response from ngrok"⟩)
      | .parseError e => (tunnels, ⟨false, none, some ("Parse error: " ++ e)⟩)
      | .requestError e =>
          (tunnels, ⟨false, none, some ("ngrok API error: " ++ e)⟩)
      | .timeout =>
          (tunnels, ⟨false, none, some "Timeout connecting to ngrok API"⟩)

lemma find?_mapSet_replace (m : ActiveTunnels) (port : Nat) (url : String)
    (h : m.any (fun pu => pu.1 == port) = true) :
    (m.map (fun pu => if pu.1 == port then (port, url) else pu)).find?
      (fun pu => pu.1 == port) = some (port, url) := by
  induction m with
  | nil => cases h
  | cons pu rest ih =>
      rw [List.map_cons]
      by_cases hk : (pu.1 == port) = true
      · rw [if_pos hk]
        exact List.find?_cons_of_pos _ (by simp)
      · rw [if_neg hk]
        have hrest : rest.any (fun pu => pu.1 == port) = true := by
          rcases List.any_eq_true.mp h with ⟨x, hx, hpx⟩
          rcases List.mem_cons.mp hx with hx | hx
          · subst hx; exact absurd hpx hk
          · exact List.any_eq_true.mpr ⟨x, hx, hpx⟩
        exact (@List.find?_cons_of_neg _ (fun pu => pu.1 == port) pu _ hk).trans
          (ih hrest)

lemma mapGet_mapSet_self (m : ActiveTunnels) (port : Nat) (url : String) :
    mapGet (mapSet m port url) port = some url := by
  unfold mapSet mapGet
  by_cases hany : m.any (fun pu => pu.1 == port) = true
  · rw [if_pos hany, find?_mapSet_replace m port url hany]
    rfl
  · rw [if_neg hany]
    have hanyf : m.any (fun pu => pu.1 == port) = false :=
      Bool.eq_false_iff.mpr hany
    have hnone : m.find? (fun pu => pu.1 == port) = none :=
      List.find?_eq_none.mpr fun x hx => List.any_eq_false.mp hanyf x hx
    rw [List.find?_append, hnone, Option.none_or,
      List.find?_cons_of_pos _ (by simp)]
    rfl

lemma countP_mapSet_replace (m : ActiveTunnels) (port : Nat) (url : String)
    (q : Nat) :
    (m.map (fun pu => if pu.1 == port then (port, url) else pu)).countP
      (fun pu => pu.1 == q) = m.countP (fun pu => pu.1 == q) := by
  induction m with
  | nil => rfl
  | cons pu rest ih =>
      rw [List.map_cons, List.countP_cons, List.countP_cons, ih]
      by_cases hk : (pu.1 == port) = true
      · have hpu : pu.1 = port := by simpa using hk
        rw [if_pos hk]
        simp [hpu]
      · rw [if_neg hk]

lemma countKey_mapSet_le (m : ActiveTunnels) (port : Nat) (url : String)
    (q : Nat) (h : countKey m q ≤ 1) :
    countKey (mapSet m port url) q ≤ 1 := by
  unfold mapSet countKey at *
  by_cases hany : m.any (fun pu => pu.1 == port) = true
  · rw [if_pos hany, countP_mapSet_replace]
    exact h
  · rw [if_neg hany, List.countP_append]
    have hanyf : m.any (fun pu => pu.1 == port) = false :=
      Bool.eq_false_iff.mpr hany
    by_cases hq : q = port
    · subst hq
      have hz : m.countP (fun pu => pu.1 == q) = 0 :=
        List.countP_eq_zero.mpr fun x hx => List.any_eq_false.mp hanyf x hx
      have hone : List.countP (fun pu => pu.1 == q) [(q, url)] = 1 := by
        simp [List.countP_cons]
      omega
    · have hzero : List.countP (fun pu => pu.1 == q) [(port, url)] = 0 := by
        simp [List.countP_cons, List.countP_nil, Ne.symm hq]
      omega

lemma createTunnel_state_cases (listResp : Option (List AgentTunnel))
    (post : PostOutcome) (m : ActiveTunnels) (port : Nat) :
    (createTunnel listResp post m port).1 = m ∨
    ∃ u, (createTunnel listResp post m port).1 = mapSet m port u := by
  unfold createTunnel
  cases hg : getNgrokTunnelUrl listResp port with
  | some u => exact Or.inr ⟨u, rfl⟩
  | none =>
      cases post with
      | response r =>
          by_cases h1 : r.public_url ≠ ""
          · exact Or.inr ⟨httpsify r.public_url, by simp [h1]⟩
          · by_cases h2 : r.error_code ≠ "" <;> simp [h1, h2]
      | parseError e => exact Or.inl rfl
      | requestError e => exact Or.inl rfl
      | timeout => exact Or.inl rfl

lemma createTunnel_countKey_le (listResp : Option (List AgentTunnel))
    (post : PostOutcome) (m : ActiveTunnels) (port q : Nat)
    (h : countKey m q ≤ 1) :
    countKey (createTunnel listResp post m port).1 q ≤ 1 := by
  rcases createTunnel_state_cases listResp post m port with hst | ⟨u, hst⟩
  · simpa [hst] using h
  · rw [hst]; exact countKey_mapSet_le m port u q h

/-- C2: per-port tunnel creation is idempotent.  If the first call for port
`P` records URL `u` and the agent reports that tunnel as existing on the
second call (`getNgrokTunnelUrl` returns `u`), the second call succeeds with
the same URL `u`, the mapping still holds `u` for `P`, and each call keeps
the mapping at no more than one entry per port (so any number of calls
does). -/
theorem createTunnel_idempotent (list₁ list₂ : Option (List AgentTunnel))
    (post₁ post₂ : PostOutcome) (m : ActiveTunnels) (port : Nat) (u : String)
    (hurl : ((createTunnel list₁ post₁ m port).2).url = some u)
    (hagain : getNgrokTunnelUrl list₂ port = some u) :
    ((createTunnel list₂ post₂ (createTunnel list₁ post₁ m port).1 port).2).url
        = some u ∧
    ((createTunnel list₂ post₂ (createTunnel list₁ post₁ m port).1
        port).2).success = true ∧
    mapGet (createTunnel list₂ post₂ (createTunnel list₁ post₁ m port).1
        port).1 port = some u ∧
    (∀ q, countKey m q ≤ 1 →
      countKey (createTunnel list₂ post₂ (createTunnel list₁ post₁ m port).1
          port).1 q ≤ 1) := by
  have hsecond : createTunnel list₂ post₂ (createTunnel list₁ post₁ m port).1
      port =
      (mapSet (createTunnel list₁ post₁ m port).1 port u,
       ⟨true, some u, some "Tunnel already exists"⟩) := by
    unfold createTunnel
    rw [hagain]
  refine ⟨by rw [hsecond], by rw [hsecond], ?_, ?_⟩
  · rw [hsecond]
    exact mapGet_mapSet_self _ port u
  · intro q hq
    rw [hsecond]
    exact countKey_mapSet_le _ port u q
      (createTunnel_countKey_le list₁ post₁ m port q hq)

/-- Concrete run of C2: the first call creates `https://porthole-3000.ngrok.app`
for port 3000; the second call, with the agent listing that tunnel, returns
the same URL and the mapping holds exactly it. -/
theorem createTunnel_idempotent_witness :
    ((createTunnel
        (some [⟨"http://localhost:3000", "https://porthole-3000.ngrok.app"⟩])
        PostOutcome.timeout
        (createTunnel (some [])
          (.response ⟨"https://porthole-3000.ngrok.app", "", ""⟩) [] 3000).1
        3000).2).url = some "https://porthole-3000.ngrok.app" ∧
    mapGet (createTunnel
        (some [⟨"http://localhost:3000", "https://porthole-3000.ngrok.app"⟩])
        PostOutcome.timeout
        (createTunnel (some [])
          (.response ⟨"https://porthole-3000.ngrok.app", "", ""⟩) [] 3000).1
        3000).1 3000 = some "https://porthole-3000.ngrok.app" := by
  have h := createTunnel_idempotent (some [])
    (some [⟨"http://localhost:3000", "https://porthole-3000.ngrok.app"⟩])
    (.response ⟨"https://porthole-3000.ngrok.app", "", ""⟩) PostOutcome.timeout
    [] 3000 "https://porthole-3000.ngrok.app" (by decide) (by decide)
  exact ⟨h.1, h.2.2.1⟩

/-! ### The https invariant on `activeTunnels` (server.js lines 199-217, 241-249, 850-858) -/

/-- Every URL recorded in the active-tunnel mapping starts with `https`. -/
def allHttps (m : ActiveTunnels) : Prop :=
  ∀ pu ∈ m, strStartsWith pu.2 "https" = true

/-- The `GET /api/tunnels` handler enumerates the mapping entry by entry
(`for (const [port, data] of activeTunnels) tunnels[port] = data.url`). -/
def apiTunnelsResponse (m : ActiveTunnels) : List (Nat × String) := m

lemma getNgrokTunnelUrl_https (listResp : Option (List AgentTunnel))
    (port : Nat) (u : String) (h : getNgrokTunnelUrl listResp port = some u) :
    strStartsWith u "https" = true := by
  cases listResp with
  | none => simp [getNgrokTunnelUrl] at h
  | some ts =>
      cases hf : ts.find? (tunnelMatches port) with
      | none => simp [getNgrokTunnelUrl, hf] at h
      | some t =>
          simp only [getNgrokTunnelUrl, hf] at h
          by_cases hemp : t.public_url = ""
          · rw [if_pos hemp] at h; cases h
          · rw [if_neg hemp] at h
            have hu := Option.some.inj h
            subst hu
            have hpred := List.find?_some hf
            simp only [tunnelMatches, Bool.and_eq_true] at hpred
            exact hpred.2

lemma httpsify_https (u : String)
    (h : strStartsWith u "http://" = true ∨ strStartsWith u "https" = true) :
    strStartsWith (httpsify u) "https" = true := by
  unfold httpsify
  by_cases hs : strStartsWith u "https" = true
  · rw [if_pos hs]; exact hs
  · rw [if_neg hs]
    rcases h with h | h
    · unfold strStartsWith at h ⊢
      unfold strReplaceFirst
      cases hu : u.toList with
      | nil => rw [hu] at h; cases h
      | cons c rest =>
          rw [hu] at h
          show ("https".toList).isPrefixOf
            (replaceFirstL "http://".toList "https://".toList (c :: rest)) = true
          unfold replaceFirstL
          rw [if_pos h]
          refine List.isPrefixOf_iff_prefix.mpr ?_
          refine List.IsPrefix.trans ?_ (List.prefix_append _ _)
          decide
    · exact absurd h hs

lemma allHttps_mapSet (m : ActiveTunnels) (port : Nat) (u : String)
    (hm : allHttps m) (hu : strStartsWith u "https" = true) :
    allHttps (mapSet m port u) := by
  intro pu hmem
  unfold mapSet at hmem
  by_cases hany : m.any (fun pu => pu.1 == port) = true
  · rw [if_pos hany] at hmem
    rcases List.mem_map.mp hmem with ⟨pv, hpv, heq⟩
    by_cases hk : (pv.1 == port) = true
    · rw [if_pos hk] at heq
      cases heq
      exact hu
    · rw [if_neg hk] at heq
      cases heq
      exact hm pu hpv
  · rw [if_neg hany] at hmem
    rcases List.mem_append.mp hmem with hmem | hmem
    · exact hm pu hmem
    · rcases List.mem_singleton.mp hmem with rfl
      exact hu

/-- C9: every URL stored in the active-tunnel mapping — and therefore every
URL returned by successful per-port tunnel creation and enumerated by
`GET /api/tunnels` — begins with `https`: discovery of pre-existing tunnels
only matches https public URLs, and a plain-http URL returned by the agent
for a freshly created tunnel (hypothesis `hpost`: the agent answers an http
tunnel request with an `http://` or `https` URL) is rewritten to https before
being recorded. -/
theorem activeTunnels_https (listResp : Option (List AgentTunnel))
    (post : PostOutcome) (m : ActiveTunnels) (port : Nat)
    (hm : allHttps m)
    (hpost : ∀ r, post = .response r → r.public_url ≠ "" →
      strStartsWith r.public_url "http://" = true ∨
      strStartsWith r.public_url "https" = true) :
    allHttps (createTunnel listResp post m port).1 ∧
    (∀ u, ((createTunnel listResp post m port).2).url = some u →
      strStartsWith u "https" = true) ∧
    (∀ pu ∈ apiTunnelsResponse (createTunnel listResp post m port).1,
      strStartsWith pu.2 "https" = true) := by
  have hmain : allHttps (createTunnel listResp post m port).1 ∧
      (∀ u, ((createTunnel listResp post m port).2).url = some u →
        strStartsWith u "https" = true) := by
    cases hg : getNgrokTunnelUrl listResp port with
    | some existingUrl =>
        have hred : createTunnel listResp post m port =
            (mapSet m port existingUrl,
             ⟨true, some existingUrl, some "Tunnel already exists"⟩) := by
          unfold createTunnel; rw [hg]
        have hex := getNgrokTunnelUrl_https listResp port existingUrl hg
        rw [hred]
        exact ⟨allHttps_mapSet m port existingUrl hm hex,
          fun u hu => by
            have := Option.some.inj hu
            subst this
            exact hex⟩
    | none =>
        cases post with
        | response r =>
            by_cases h1 : r.public_url ≠ ""
            · have hred : createTunnel listResp (.response r) m port =
                  (mapSet m port (httpsify r.public_url),
                   ⟨true, some (httpsify r.public_url), none⟩) := by
                unfold createTunnel; rw [hg]; simp [h1]
              have hr := httpsify_https r.public_url (hpost r rfl h1)
              rw [hred]
              exact ⟨allHttps_mapSet m port _ hm hr,
                fun u hu => by
                  have := Option.some.inj hu
                  subst this
                  exact hr⟩
            · by_cases h2 : r.error_code ≠ ""
              · have hred : createTunnel listResp (.response r) m port =
                    (m, ⟨false, none,
                      some (if r.msg ≠ "" then r.msg
                        else "Failed to create tunnel")⟩) := by
                  unfold createTunnel; rw [hg]; simp [h1, h2]
                rw [hred]
                exact ⟨hm, fun u hu => by cases hu⟩
              · have hred : createTunnel listResp (.response r) m port =
                    (m, ⟨false, none,
                      some "Unexpected response from ngrok"⟩) := by
                  unfold createTunnel; rw [hg]; simp [h1, h2]
                rw [hred]
                exact ⟨hm, fun u hu => by cases hu⟩
        | parseError e =>
            have hred : createTunnel listResp (.parseError e) m port =
                (m, ⟨false, none, some ("Parse error: " ++ e)⟩) := by
              unfold createTunnel; rw [hg]
            rw [hred]
            exact ⟨hm, fun u hu => by cases hu⟩
        | requestError e =>
            have hred : createTunnel listResp (.requestError e) m port =
                (m, ⟨false, none, some ("ngrok API error: " ++ e)⟩) := by
              unfold createTunnel; rw [hg]
            rw [hred]
            exact ⟨hm, fun u hu => by cases hu⟩
        | timeout =>
            have hred : createTunnel listResp .timeout m port =
                (m, ⟨false, none, some "Timeout connecting to ngrok API"⟩) := by
              unfold createTunnel; rw [hg]
            rw [hred]
            exact ⟨hm, fun u hu => by cases hu⟩
  exact ⟨hmain.1, hmain.2, fun pu hmem => hmain.1 pu hmem⟩

/-- Concrete run of C9: the agent returns a plain-http URL for a new tunnel;
the recorded and returned URL is the https rewrite. -/
theorem activeTunnels_https_witness :
    strStartsWith "https://porthole-5000.ngrok.app" "https" = true :=
  (activeTunnels_https (some []) (.response ⟨"http://porthole-5000.ngrok.app", "", ""⟩)
      [] 5000 (fun pu hmem => absurd hmem (List.not_mem_nil pu))
      (fun r hr => by cases hr; intro _; exact Or.inl (by decide))).2.1
    "https://porthole-5000.ngrok.app" (by decide)

/-! ### Startup reconciliation — `checkExistingNgrok`, `startNgrok`, `main`
(server.js lines 958-1101)

`checkExistingNgrok` queries the agent listing (`none` models an unreachable
agent, a timeout or a parse error, each of which resolves `exists: false`).
`startNgrok` is modelled over the sequence of child-process events delivered
during launch; the promise settles on the first decisive event
(`findSome?`).  `main` is the actions it performs after the check, and the
final gateway outcome. -/

structure CheckNgrokResult where
  doesExist : Bool
  url : Option String
  hasOtherTunnels : Bool
  deriving DecidableEq, Repr

/-- The find predicate of `checkExistingNgrok`: the session's address
includes `:serverPort` and its public URL includes the configured domain. -/
def existingSessionMatches (serverPort : Nat) (domain : String)
    (t : AgentTunnel) : Bool :=
  strIncludes t.addr (":" ++ toString serverPort) &&
    strIncludes t.public_url domain

/-- `checkExistingNgrok`: report an existing session forwarding to the
gateway's port under the configured domain, or whether any other sessions
exist (`tunnels.length > 0`); every failure mode resolves `exists: false`. -/
def checkExistingNgrok (listResp : Option (List AgentTunnel))
    (serverPort : Nat) (domain : String) : CheckNgrokResult :=
  match listResp with
  | none => ⟨false, none, false⟩
  | some ts =>
      match ts.find? (existingSessionMatches serverPort domain) with
      | some t => ⟨true, some t.public_url, false⟩
      | none => ⟨false, none, decide (0 < ts.length)⟩

/-- The tunnel-related actions `main` can take after the startup check. -/
inductive StartupAction where
  | reuseSession (url : Option String)
  | killExistingAgent
  | startAgent
  deriving DecidableEq, Repr

/-- The action sequence of `main`: reuse when the check found a matching
session; otherwise kill existing agent processes when other sessions exist,
then start a fresh agent session. -/
def reconcileActions (check : CheckNgrokResult) : List StartupAction :=
  if check.doesExist then [.reuseSession check.url]
  else (if check.hasOtherTunnels then [.killExistingAgent] else []) ++
    [.startAgent]

/-- C8: when the agent's session listing reports an existing session
forwarding to the gateway's own port whose public URL matches the configured
domain, startup reconciliation performs zero terminate calls and zero
session-start calls and proceeds directly to reusing that session. -/
theorem startup_reuses_existing_session (ts : List AgentTunnel)
    (serverPort : Nat) (domain : String) (t : AgentTunnel) (hmem : t ∈ ts)
    (haddr : strIncludes t.addr (":" ++ toString serverPort) = true)
    (hdom : strIncludes t.public_url domain = true) :
    (checkExistingNgrok (some ts) serverPort domain).doesExist = true ∧
    (∃ u, reconcileActions (checkExistingNgrok (some ts) serverPort domain) =
      [.reuseSession (some u)]) ∧
    StartupAction.killExistingAgent ∉
      reconcileActions (checkExistingNgrok (some ts) serverPort domain) ∧
    StartupAction.startAgent ∉
      reconcileActions (checkExistingNgrok (some ts) serverPort domain) := by
  cases hf : ts.find? (existingSessionMatches serverPort domain) with
  | none =>
      have := List.find?_eq_none.mp hf t hmem
      exact absurd (by
        unfold existingSessionMatches
        rw [haddr, hdom]
        rfl) this
  | some t' =>
      have hred : checkExistingNgrok (some ts) serverPort domain =
          ⟨true, some t'.public_url, false⟩ := by
        simp [checkExistingNgrok, hf]
      rw [hred]
      refine ⟨rfl, ⟨t'.public_url, rfl⟩, ?_, ?_⟩ <;> simp [reconcileActions]

/-- Concrete run of C8: the agent lists a session for the gateway's port 8888
under the configured domain; reconciliation neither kills nor starts. -/
theorem startup_reuses_existing_session_witness :
    (checkExistingNgrok
        (some [⟨"http://localhost:8888", "https://myhost.ngrok.dev"⟩])
        8888 "myhost.ngrok.dev").doesExist = true ∧
    StartupAction.killExistingAgent ∉
      reconcileActions (checkExistingNgrok
        (some [⟨"http://localhost:8888", "https://myhost.ngrok.dev"⟩])
        8888 "myhost.ngrok.dev") ∧
    StartupAction.startAgent ∉
      reconcileActions (checkExistingNgrok
        (some [⟨"http://localhost:8888", "https://myhost.ngrok.dev"⟩])
        8888 "myhost.ngrok.dev") := by
  have h := startup_reuses_existing_session
    [⟨"http://localhost:8888", "https://myhost.ngrok.dev"⟩] 8888
    "myhost.ngrok.dev" ⟨"http://localhost:8888", "https://myhost.ngrok.dev"⟩
    (by decide) (by decide) (by decide)
  exact ⟨h.1, h.2.2.1, h.2.2.2⟩

/-! ### `startNgrok` launch outcome and `main`'s reaction (server.js 1009-1101) -/

/-- The stderr failure classifier in `startNgrok`: the chunk includes
`ERR_NGROK`, `authentication failed` or `error`. -/
def ngrokFailureOutput (output : String) : Bool :=
  strIncludes output "ERR_NGROK" || strIncludes output "authentication failed"
    || strIncludes output "error"

/-- One child-process event during the launch grace period. -/
inductive LaunchEvent where
  | spawnError (code : String) (message : String)
  | stderrData (output : String)
  | processClose (code : Option Int)
  | startupTimerFired
  deriving DecidableEq, Repr

/-- How a single event settles (or does not settle) the `startNgrok` promise:
a spawn error rejects (with the dedicated not-found message for `ENOENT`),
stderr output rejects when it matches the failure classifier, an early exit
rejects when the code is nonzero and non-null, and the 3-second timer
resolves. -/
def launchEventOutcome : LaunchEvent → Option (Except String Unit)
  | .spawnError code message =>
      if code = "ENOENT" then
        some (.error "ngrok not found. Install from https://ngrok.com/download")
      else some (.error ("Failed to start ngrok: " ++ message))
  | .stderrData output =>
      if ngrokFailureOutput output then
        some (.error ("ngrok error: " ++ String.mk (trimL output.toList)))
      else none
  | .processClose code =>
      match code with
      | some c => if c ≠ 0 then some (.error s!"ngrok exited with code {c}")
          else none
      | none => none
  | .startupTimerFired => some (.ok ())

/-- `startNgrok`: the promise settles with the first decisive event (a
settled promise ignores later `resolve`/`reject` calls, and a reject clears
the timer). -/
def startNgrok (events : List LaunchEvent) : Option (Except String Unit) :=
  events.findSome? launchEventOutcome

/-- The gateway state after `main` finishes its startup sequence:
whether the HTTP server is (still) serving, the process exit code if `main`
called `process.exit`, and the `console.error` diagnostic if any. -/
structure GatewayOutcome where
  serving : Bool
  exitCode : Option Nat
  diagnostic : Option String
  deriving DecidableEq, Repr

/-- `main`: the server starts listening first; a check hit reuses the
session; otherwise the launch outcome decides — a rejection reaches the
`catch`, which logs `Error: ...` and calls `process.exit(1)` (so the gateway
stops serving), a resolution leaves the gateway serving, and an unsettled
launch leaves the server listening with `main` suspended. -/
def mainStartup (check : CheckNgrokResult) (events : List LaunchEvent) :
    GatewayOutcome :=
  if check.doesExist then ⟨true, none, none⟩
  else
    match startNgrok events with
    | some (.ok _) => ⟨true, none, none⟩
    | some (.error e) => ⟨false, some 1, some ("Error: " ++ e)⟩
    | none => ⟨true, none, none⟩

/-- C1 counterexample: a launch failure other than a missing executable — here
`spawn` failing with `EACCES` — also aborts the whole gateway
(`process.exit(1)`), instead of leaving it serving tunnel-less as the claim
states. -/
theorem nonmissing_launch_failure_aborts_gateway :
    mainStartup ⟨false, none, false⟩
        [.spawnError "EACCES" "spawn ngrok EACCES"] =
      ⟨false, some 1, some "Error: Failed to start ngrok: spawn ngrok EACCES"⟩ := by
  decide

/-- C1 (amended): a missing agent executable (`ENOENT`) aborts gateway
startup with the dedicated not-found diagnostic; every other launch failure
detected during the grace period likewise aborts the gateway with exit code
1 and the failure reported as a diagnostic; the gateway keeps serving only
when the launch settles successfully (or an existing session was reused). -/
theorem launch_failures_fatal (check : CheckNgrokResult)
    (events : List LaunchEvent) (hnoexist : check.doesExist = false) :
    (∀ msg rest, events = .spawnError "ENOENT" msg :: rest →
      mainStartup check events =
        ⟨false, some 1,
         some "Error: ngrok not found. Install from https://ngrok.com/download"⟩) ∧
    (∀ e, startNgrok events = some (.error e) →
      mainStartup check events = ⟨false, some 1, some ("Error: " ++ e)⟩) ∧
    (startNgrok events = some (.ok ()) →
      (mainStartup check events).serving = true) := by
  refine ⟨?_, ?_, ?_⟩
  · intro msg rest hev
    subst hev
    have hstart : startNgrok (LaunchEvent.spawnError "ENOENT" msg :: rest) =
        some (.error "ngrok not found. Install from https://ngrok.com/download") := by
      simp [startNgrok, List.findSome?_cons, launchEventOutcome]
    simp [mainStartup, hnoexist, hstart]
  · intro e he
    simp [mainStartup, hnoexist, he]
  · intro hok
    simp [mainStartup, hnoexist, hok]

/-- Concrete runs of the amended C1: a missing executable aborts with the
not-found diagnostic; an authentication failure on stderr aborts with the
agent's message; a quiet grace period leaves the gateway serving. -/
theorem launch_failures_fatal_witness :
    mainStartup ⟨false, none, false⟩ [.spawnError "ENOENT" "spawn ngrok ENOENT"] =
      ⟨false, some 1,
       some "Error: ngrok not found. Install from https://ngrok.com/download"⟩ ∧
    mainStartup ⟨false, none, false⟩ [.stderrData "authentication failed"] =
      ⟨false, some 1, some "Error: ngrok error: authentication failed"⟩ ∧
    (mainStartup ⟨false, none, false⟩ [.startupTimerFired]).serving = true := by
  refine ⟨?_, ?_, ?_⟩
  · exact (launch_failures_fatal ⟨false, none, false⟩
      [.spawnError "ENOENT" "spawn ngrok ENOENT"] rfl).1
      "spawn ngrok ENOENT" [] rfl
  · exact (launch_failures_fatal ⟨false, none, false⟩
      [.stderrData "authentication failed"] rfl).2.1
      "ngrok error: authentication failed" rfl
  · exact (launch_failures_fatal ⟨false, none, false⟩
      [.startupTimerFired] rfl).2.2 rfl

/-! ### 4.6 Reverse Proxy Router — the request handler's routing
(server.js lines 786-955)

The handler is a pure routing decision over the request's method, pathname,
query string and `Cookie` header (paths and headers as `List Char`, the
faithful embedding of JS strings here).  Regex matches are translated:
`/^\/proxy\/(\d+)(\/.*)?$/` anchors on the pathname, and
`/porthole_proxy_port=(\d+)/` scans the cookie header for the first
occurrence of the literal followed by at least one digit.  A `forward`
route stands for the proxied upstream request to `127.0.0.1:targetPort`
with the original method, the given path-plus-query, and the original
headers with `Host` overridden. -/

structure Request where
  method : String
  pathname : List Char
  search : List Char
  cookie : List Char
  deriving DecidableEq, Repr

/-- Scan for the first occurrence of `pat` followed by at least one digit and
return the value of the maximal digit run, like an unanchored
`pat(\d+)` regex match with `parseInt`. -/
def matchNumAfter (pat : List Char) : List Char → Option Nat
  | [] => none
  | c :: rest =>
      if pat.isPrefixOf (c :: rest) then
        if (((c :: rest).drop pat.length).takeWhile Char.isDigit).isEmpty then
          matchNumAfter pat rest
        else some (natOfDigits (((c :: rest).drop pat.length).takeWhile
          Char.isDigit))
      else matchNumAfter pat rest

/-- The cookie lookup `cookies.match(/porthole_proxy_port=(\d+)/)`. -/
def cookiePort (cookie : List Char) : Option Nat :=
  matchNumAfter "porthole_proxy_port=".toList cookie

/-- The anchored pathname match `/^\/proxy\/(\d+)(\/.*)?$/`, returning the
port and the second capture group (empty when absent). -/
def parseProxyPath (p : List Char) : Option (Nat × List Char) :=
  if "/proxy/".toList.isPrefixOf p then
    if ((p.drop "/proxy/".toList.length).takeWhile Char.isDigit).isEmpty then
      none
    else if ((p.drop "/proxy/".toList.length).drop
        ((p.drop "/proxy/".toList.length).takeWhile Char.isDigit).length).isEmpty
      then
      some (natOfDigits ((p.drop "/proxy/".toList.length).takeWhile
        Char.isDigit), [])
    else if ((p.drop "/proxy/".toList.length).drop
        ((p.drop "/proxy/".toList.length).takeWhile Char.isDigit).length).headD
        ' ' = '/' then
      some (natOfDigits ((p.drop "/proxy/".toList.length).takeWhile
          Char.isDigit),
        (p.drop "/proxy/".toList.length).drop
          ((p.drop "/proxy/".toList.length).takeWhile Char.isDigit).length)
    else none
  else none

/-- The routing decision of the HTTP request handler. -/
inductive Route where
  | apiPorts
  | apiKill (port : Option Nat)
  | apiLaunch (index : Option Nat)
  | apiCommands
  | apiTunnel (port : Option Nat)
  | apiTunnels
  | proxyRedirect (setCookiePort : Nat) (location : List Char)
  | forward (targetPort : Nat) (method : String) (upstreamPath : List Char)
  | noProxyTarget
  | dashboard
  | notFound
  deriving DecidableEq, Repr

/-- The final `if (url.pathname === '/' && req.method === 'GET')` dashboard
route and the 404 fallthrough. -/
def routeFallback (req : Request) : Route :=
  if req.pathname = "/".toList ∧ req.method = "GET" then .dashboard
  else .notFound

/-- The clauses of the request handler after the six API routes: the
`/proxy/{port}/{path}` selection redirect (which sets the
`porthole_proxy_port` cookie and points at `/p{path}{search}`),
cookie-driven forwarding for `/p` paths, cookie-driven forwarding for bare
non-API non-root paths, then dashboard and 404. -/
def routeNonApi (req : Request) : Route :=
  match parseProxyPath req.pathname with
  | some (targetPort, tail) =>
      .proxyRedirect targetPort
        ("/p".toList ++ (if tail.isEmpty then "/".toList else tail) ++
          req.search)
  | none =>
      if "/p/".toList.isPrefixOf req.pathname ∨ req.pathname = "/p".toList
        then
        match cookiePort req.cookie with
        | some n =>
            if n = 0 then .noProxyTarget
            else .forward n req.method
              ((if (req.pathname.drop 2).isEmpty then "/".toList
                else req.pathname.drop 2) ++ req.search)
        | none => .noProxyTarget
      else if ¬ ("/api/".toList.isPrefixOf req.pathname) ∧
          req.pathname ≠ "/".toList then
        match cookiePort req.cookie with
        | some n =>
            if n ≠ 0 then .forward n req.method (req.pathname ++ req.search)
            else routeFallback req
        | none => routeFallback req
      else routeFallback req

/-- The request handler's routing, clause by clause in source order: the six
API routes, then the proxy-selection and forwarding clauses of
`routeNonApi`. -/
def routeRequest (req : Request) : Route :=
  if req.pathname = "/api/ports".toList ∧ req.method = "GET" then .apiPorts
  else if "/api/kill/".toList.isPrefixOf req.pathname ∧ req.method = "POST" then
    .apiKill (matchNumAfter "/api/kill/".toList req.pathname)
  else if "/api/launch/".toList.isPrefixOf req.pathname ∧ req.method = "POST"
    then .apiLaunch (matchNumAfter "/api/launch/".toList req.pathname)
  else if req.pathname = "/api/commands".toList ∧ req.method = "GET" then
    .apiCommands
  else if "/api/tunnel/".toList.isPrefixOf req.pathname ∧ req.method = "POST"
    then .apiTunnel (matchNumAfter "/api/tunnel/".toList req.pathname)
  else if req.pathname = "/api/tunnels".toList ∧ req.method = "GET" then
    .apiTunnels
  else routeNonApi req

/-- The `Set-Cookie` header value of the selection redirect. -/
def setCookieHeader (port : Nat) : List Char :=
  "porthole_proxy_port=".toList ++ (toString port).toList ++
    "; Path=/; SameSite=Lax".toList

/-- Whether a route is a proxied upstream forward. -/
def Route.isForward : Route → Bool
  | .forward _ _ _ => true
  | _ => false

lemma routeRequest_not_api (req : Request)
    (hna : ¬ ("/api/".toList <+: req.pathname)) :
    routeRequest req = routeNonApi req := by
  have h1 : ¬(req.pathname = "/api/ports".toList ∧ req.method = "GET") :=
    fun hc => hna (hc.1 ▸ (by decide : "/api/".toList <+: "/api/ports".toList))
  have h2 : ¬("/api/kill/".toList.isPrefixOf req.pathname ∧
      req.method = "POST") :=
    fun hc => hna (List.IsPrefix.trans (by decide)
      (List.isPrefixOf_iff_prefix.mp hc.1))
  have h3 : ¬("/api/launch/".toList.isPrefixOf req.pathname ∧
      req.method = "POST") :=
    fun hc => hna (List.IsPrefix.trans (by decide)
      (List.isPrefixOf_iff_prefix.mp hc.1))
  have h4 : ¬(req.pathname = "/api/commands".toList ∧ req.method = "GET") :=
    fun hc => hna (hc.1 ▸
      (by decide : "/api/".toList <+: "/api/commands".toList))
  have h5 : ¬("/api/tunnel/".toList.isPrefixOf req.pathname ∧
      req.method = "POST") :=
    fun hc => hna (List.IsPrefix.trans (by decide)
      (List.isPrefixOf_iff_prefix.mp hc.1))
  have h6 : ¬(req.pathname = "/api/tunnels".toList ∧ req.method = "GET") :=
    fun hc => hna (hc.1 ▸
      (by decide : "/api/".toList <+: "/api/tunnels".toList))
  unfold routeRequest
  rw [if_neg h1, if_neg h2, if_neg h3, if_neg h4, if_neg h5, if_neg h6]

/-- C10: a request whose path starts with `/api/` or is exactly `/` is never
forwarded to the selected target port, even when a valid selection cookie is
present — the gateway's API routes and the dashboard take precedence over
cookie-based forwarding. -/
theorem api_routes_never_forwarded (req : Request)
    (h : "/api/".toList <+: req.pathname ∨ req.pathname = "/".toList) :
    (routeRequest req).isForward = false := by
  rcases h with hapi | hroot
  · -- the /p clause and the bare clause are both unreachable under /api/
    have hnp : ¬("/p/".toList.isPrefixOf req.pathname ∨
        req.pathname = "/p".toList) := by
      rintro (hp | hp)
      · have := List.prefix_of_prefix_length_le
          (List.isPrefixOf_iff_prefix.mp hp) hapi (by decide)
        exact absurd this (by decide)
      · rw [hp] at hapi
        exact absurd hapi (by decide)
    have hparse : parseProxyPath req.pathname = none := by
      unfold parseProxyPath
      rw [if_neg]
      intro hproxy
      have := List.prefix_of_prefix_length_le hapi
        (List.isPrefixOf_iff_prefix.mp hproxy) (by decide)
      exact absurd this (by decide)
    have hbare : ¬(¬ ("/api/".toList.isPrefixOf req.pathname) ∧
        req.pathname ≠ "/".toList) :=
      fun hc => hc.1 (List.isPrefixOf_iff_prefix.mpr hapi)
    have hend : routeNonApi req = routeFallback req := by
      unfold routeNonApi
      rw [hparse, if_neg hnp, if_neg hbare]
    unfold routeRequest
    split_ifs <;>
      first
        | rfl
        | (rw [hend]; unfold routeFallback; split_ifs <;> rfl)
  · have hna : ¬ ("/api/".toList <+: req.pathname) := by
      rw [hroot]
      decide
    rw [routeRequest_not_api req hna]
    have hparse : parseProxyPath req.pathname = none := by
      rw [hroot]
      decide
    have hnp : ¬("/p/".toList.isPrefixOf req.pathname ∨
        req.pathname = "/p".toList) := by
      rw [hroot]
      decide
    have hbare : ¬(¬ ("/api/".toList.isPrefixOf req.pathname) ∧
        req.pathname ≠ "/".toList) := fun hc => hc.2 hroot
    unfold routeNonApi
    rw [hparse, if_neg hnp, if_neg hbare]
    unfold routeFallback
    split_ifs <;> rfl

/-- C5: the proxy selection round-trip.  (1) A request matching
`/proxy/{P}/{path}` is answered with the 302 redirect route carrying the
selection cookie for `P` and a `Location` of `/p{path}{search}` — the same
subpath and query under the canonical `/p` prefix.  (2) Thereafter every
request to a `/p` path whose cookie records `P` is forwarded to
`127.0.0.1:P` at the equivalent path (the `/p` prefix stripped, `/` when
empty) and query.  (3) Every bare request — one matching no API route, not
the root, not a `/p` path and naming no explicit port (`/proxy` pattern) —
whose cookie records `P` is forwarded to `127.0.0.1:P` at its own path and
query.  This holds until the cookie is cleared or overwritten, since the
routing depends only on the cookie presented. -/
theorem proxy_selection_roundtrip (P : Nat) (hP : 0 < P) :
    (∀ (req : Request) (tail : List Char),
      parseProxyPath req.pathname = some (P, tail) →
      routeRequest req = .proxyRedirect P
        ("/p".toList ++ (if tail.isEmpty then "/".toList else tail) ++
          req.search)) ∧
    (∀ req : Request,
      cookiePort req.cookie = some P →
      ("/p/".toList.isPrefixOf req.pathname ∨ req.pathname = "/p".toList) →
      routeRequest req = .forward P req.method
        ((if (req.pathname.drop 2).isEmpty then "/".toList
          else req.pathname.drop 2) ++ req.search)) ∧
    (∀ req : Request,
      cookiePort req.cookie = some P →
      parseProxyPath req.pathname = none →
      ¬ ("/api/".toList.isPrefixOf req.pathname) →
      req.pathname ≠ "/".toList →
      ¬ ("/p/".toList.isPrefixOf req.pathname) →
      req.pathname ≠ "/p".toList →
      routeRequest req = .forward P req.method
        (req.pathname ++ req.search)) := by
  have hPne : P ≠ 0 := Nat.pos_iff_ne_zero.mp hP
  refine ⟨?_, ?_, ?_⟩
  · intro req tail hparse
    have hpre : "/proxy/".toList.isPrefixOf req.pathname := by
      by_contra hnpre
      unfold parseProxyPath at hparse
      rw [if_neg hnpre] at hparse
      cases hparse
    have hproxyPre := List.isPrefixOf_iff_prefix.mp hpre
    have hna : ¬ ("/api/".toList <+: req.pathname) := fun h =>
      absurd (List.prefix_of_prefix_length_le h hproxyPre (by decide))
        (by decide)
    rw [routeRequest_not_api req hna]
    unfold routeNonApi
    rw [hparse]
  · intro req hck hp
    have hna : ¬ ("/api/".toList <+: req.pathname) := by
      rcases hp with hp | hp
      · intro h
        exact absurd (List.prefix_of_prefix_length_le
          (List.isPrefixOf_iff_prefix.mp hp) h (by decide)) (by decide)
      · rw [hp]; decide
    have hparse : parseProxyPath req.pathname = none := by
      rcases hp with hp | hp
      · unfold parseProxyPath
        rw [if_neg]
        intro hproxy
        exact absurd (List.prefix_of_prefix_length_le
          (List.isPrefixOf_iff_prefix.mp hp)
          (List.isPrefixOf_iff_prefix.mp hproxy) (by decide)) (by decide)
      · rw [hp]; decide
    rw [routeRequest_not_api req hna]
    unfold routeNonApi
    rw [hparse, if_pos hp, hck]
    simp [hPne]
  · intro req hck hparse hapi hroot hnp1 hnp2
    have hna : ¬ ("/api/".toList <+: req.pathname) := fun h =>
      hapi (List.isPrefixOf_iff_prefix.mpr h)
    rw [routeRequest_not_api req hna]
    unfold routeNonApi
    rw [hparse,
      if_neg (by rintro (hp | hp); exacts [hnp1 hp, hnp2 hp]),
      if_pos (And.intro hapi hroot), hck]
    simp [hPne]

/-- Concrete run of C5: selecting port 3000 via `/proxy/3000/app?x=1`
redirects to `/p/app?x=1` and sets the cookie for 3000; the emitted
`Set-Cookie` value parses back to 3000; with that cookie, `/p/app?x=1` and
the bare `/favicon.ico` are forwarded to port 3000 at the equivalent path
and query. -/
theorem proxy_selection_roundtrip_witness :
    routeRequest ⟨"GET", "/proxy/3000/app".toList, "?x=1".toList, []⟩ =
      .proxyRedirect 3000 "/p/app?x=1".toList ∧
    cookiePort (setCookieHeader 3000) = some 3000 ∧
    routeRequest ⟨"GET", "/p/app".toList, "?x=1".toList,
        setCookieHeader 3000⟩ = .forward 3000 "GET" "/app?x=1".toList ∧
    routeRequest ⟨"POST", "/favicon.ico".toList, [],
        setCookieHeader 3000⟩ = .forward 3000 "POST" "/favicon.ico".toList := by
  have h := proxy_selection_roundtrip 3000 (by decide)
  refine ⟨?_, by decide, ?_, ?_⟩
  · have ha := h.1 ⟨"GET", "/proxy/3000/app".toList, "?x=1".toList, []⟩
      "/app".toList (by decide)
    exact ha.trans (by decide)
  · have hb := h.2.1 ⟨"GET", "/p/app".toList, "?x=1".toList,
      setCookieHeader 3000⟩ (by decide) (Or.inl (by decide))
    exact hb.trans (by decide)
  · have hc := h.2.2 ⟨"POST", "/favicon.ico".toList, [], setCookieHeader 3000⟩
      (by decide) (by decide) (by decide) (by decide) (by decide) (by decide)
    exact hc.trans (by decide)

/-- Concrete run of C10: `POST /api/tunnel/3000` and `GET /` with a valid
selection cookie are not forwarded. -/
theorem api_routes_never_forwarded_witness :
    (routeRequest ⟨"POST", "/api/tunnel/3000".toList, [],
        "porthole_proxy_port=3000".toList⟩).isForward = false ∧
    (routeRequest ⟨"GET", "/".toList, [],
        "porthole_proxy_port=3000".toList⟩).isForward = false :=
  ⟨api_routes_never_forwarded _ (Or.inl (by decide)),
   api_routes_never_forwarded _ (Or.inr (by decide))⟩

end Porthole
